import Mathlib

set_option linter.unusedVariables false

/-!
Verification of the `surety` crate: wrapper types `Checked`, `Wrapping`,
`Saturating`, `Overflowing` over fixed-width integers.

A fixed-width integer type `T` is modelled by a signedness flag `s : Bool`
and a bit width `w : Nat`; its values are the integers in
`[minVal s w, maxVal s w]`.  The Rust arithmetic primitives
(`checked_add`, `wrapping_add`, `saturating_add`, `overflowing_add`, ...)
are modelled as functions on `Int` with explicit range checks and modular
reduction by `2 ^ w`.  A Rust panic is modelled by returning `none` from an
`Option`-valued function.
-/

namespace Surety

/-- Two to the power `w`, as an integer. -/
def twoPow (w : Nat) : Int := ((2 ^ w : Nat) : Int)

/-- The least value of the modelled type: `-(2 ^ (w-1))` when signed, else `0`. -/
def minVal (s : Bool) (w : Nat) : Int :=
  if s then -(twoPow (w - 1)) else 0

/-- The greatest value of the modelled type. -/
def maxVal (s : Bool) (w : Nat) : Int :=
  if s then twoPow (w - 1) - 1 else twoPow w - 1

/-- Whether `x` is representable in the modelled type. -/
def inRange (s : Bool) (w : Nat) (x : Int) : Bool :=
  decide (minVal s w ≤ x) && decide (x ≤ maxVal s w)

/-- Reduction of `x` modulo `2 ^ w` into the representable range
(twos-complement reduction for signed types). -/
def wrap (s : Bool) (w : Nat) (x : Int) : Int :=
  if s then (x + twoPow (w - 1)) % twoPow w - twoPow (w - 1)
  else x % twoPow w

/-- Clamping of `x` to the representable range. -/
def clamp (s : Bool) (w : Nat) (x : Int) : Int :=
  if x < minVal s w then minVal s w
  else if maxVal s w < x then maxVal s w
  else x

/-- Absolute value on `Int`, mirroring the primitive `abs` of the sources. -/
def absVal (a : Int) : Int := if a < 0 then -a else a

/-- Exponentiation with a natural exponent, by iterated multiplication. -/
def ipow (a : Int) : Nat → Int
  | 0 => 1
  | e + 1 => ipow a e * a

/-- Conversion of an arbitrary fixed-width integer value into `u32`
(the `try_into` conversion the shift operators use): succeeds exactly when
the value fits in `[0, 2^32)`. -/
def toU32 (n : Int) : Option Nat :=
  if 0 ≤ n ∧ n < 4294967296 then some n.toNat else none

/-- The `checked_add` primitive: the exact sum when representable, else `none`. -/
def checked_add (s : Bool) (w : Nat) (a b : Int) : Option Int :=
  if inRange s w (a + b) then some (a + b) else none

def checked_sub (s : Bool) (w : Nat) (a b : Int) : Option Int :=
  if inRange s w (a - b) then some (a - b) else none

def checked_mul (s : Bool) (w : Nat) (a b : Int) : Option Int :=
  if inRange s w (a * b) then some (a * b) else none

def checked_neg (s : Bool) (w : Nat) (a : Int) : Option Int :=
  if inRange s w (-a) then some (-a) else none

def checked_abs (s : Bool) (w : Nat) (a : Int) : Option Int :=
  if inRange s w (absVal a) then some (absVal a) else none

def checked_pow (s : Bool) (w : Nat) (a : Int) (e : Nat) : Option Int :=
  if inRange s w (ipow a e) then some (ipow a e) else none

/-- The `checked_div` primitive (truncating division): `none` when the divisor
is zero or the quotient is unrepresentable (signed `MIN / -1`). -/
def checked_div (s : Bool) (w : Nat) (a b : Int) : Option Int :=
  if b = 0 then none
  else if inRange s w (Int.tdiv a b) then some (Int.tdiv a b) else none

/-- The `checked_rem` primitive: `none` when the divisor is zero or the
corresponding division overflows (signed `MIN % -1`). -/
def checked_rem (s : Bool) (w : Nat) (a b : Int) : Option Int :=
  if b = 0 then none
  else if inRange s w (Int.tdiv a b) then some (Int.tmod a b) else none

/-- The `checked_div_euclid` primitive (Euclidean division): `none` when the
divisor is zero or the quotient is unrepresentable. -/
def checked_div_euclid (s : Bool) (w : Nat) (a b : Int) : Option Int :=
  if b = 0 then none
  else if inRange s w (Int.ediv a b) then some (Int.ediv a b) else none

def checked_rem_euclid (s : Bool) (w : Nat) (a b : Int) : Option Int :=
  if b = 0 then none
  else if inRange s w (Int.ediv a b) then some (Int.emod a b) else none

/-- The `checked_shl` primitive: the shift count is already a `u32`; `none`
exactly when it is at least the bit width. -/
def checked_shl (s : Bool) (w : Nat) (a : Int) (k : Nat) : Option Int :=
  if k < w then some (wrap s w (a * twoPow k)) else none

/-- Arithmetic (sign-preserving) right shift of a value by `k` bits, as floor
division by `2 ^ k`. -/
def shiftRightVal (a : Int) (k : Nat) : Int := Int.fdiv a (twoPow k)

def checked_shr (s : Bool) (w : Nat) (a : Int) (k : Nat) : Option Int :=
  if k < w then some (shiftRightVal a k) else none

/-- The `wrapping_add` primitive: modular reduction of the exact sum. -/
def wrapping_add (s : Bool) (w : Nat) (a b : Int) : Int := wrap s w (a + b)

def wrapping_sub (s : Bool) (w : Nat) (a b : Int) : Int := wrap s w (a - b)

def wrapping_mul (s : Bool) (w : Nat) (a b : Int) : Int := wrap s w (a * b)

def wrapping_neg (s : Bool) (w : Nat) (a : Int) : Int := wrap s w (-a)

def wrapping_abs (s : Bool) (w : Nat) (a : Int) : Int := wrap s w (absVal a)

def wrapping_pow (s : Bool) (w : Nat) (a : Int) (e : Nat) : Int :=
  wrap s w (ipow a e)

/-- The `wrapping_div` primitive: panics (modelled as `none`) when the divisor
is zero; otherwise the truncating quotient, reduced into range. -/
def wrapping_div (s : Bool) (w : Nat) (a b : Int) : Option Int :=
  if b = 0 then none else some (wrap s w (Int.tdiv a b))

def wrapping_rem (s : Bool) (w : Nat) (a b : Int) : Option Int :=
  if b = 0 then none else some (wrap s w (Int.tmod a b))

def wrapping_div_euclid (s : Bool) (w : Nat) (a b : Int) : Option Int :=
  if b = 0 then none else some (wrap s w (Int.ediv a b))

def wrapping_rem_euclid (s : Bool) (w : Nat) (a b : Int) : Option Int :=
  if b = 0 then none else some (wrap s w (Int.emod a b))

/-- The `wrapping_shl` primitive: shifts by the count reduced modulo the width. -/
def wrapping_shl (s : Bool) (w : Nat) (a : Int) (k : Nat) : Int :=
  wrap s w (a * twoPow (k % w))

def wrapping_shr (s : Bool) (w : Nat) (a : Int) (k : Nat) : Int :=
  shiftRightVal a (k % w)

/-- The `saturating_add` primitive: the exact sum clamped to the range. -/
def saturating_add (s : Bool) (w : Nat) (a b : Int) : Int := clamp s w (a + b)

def saturating_sub (s : Bool) (w : Nat) (a b : Int) : Int := clamp s w (a - b)

def saturating_mul (s : Bool) (w : Nat) (a b : Int) : Int := clamp s w (a * b)

def saturating_pow (s : Bool) (w : Nat) (a : Int) (e : Nat) : Int :=
  clamp s w (ipow a e)

/-- The `overflowing_add` primitive: the wrapped sum together with the flag
that reports whether the exact sum was unrepresentable. -/
def overflowing_add (s : Bool) (w : Nat) (a b : Int) : Int × Bool :=
  (wrap s w (a + b), !inRange s w (a + b))

def overflowing_sub (s : Bool) (w : Nat) (a b : Int) : Int × Bool :=
  (wrap s w (a - b), !inRange s w (a - b))

def overflowing_mul (s : Bool) (w : Nat) (a b : Int) : Int × Bool :=
  (wrap s w (a * b), !inRange s w (a * b))

def overflowing_neg (s : Bool) (w : Nat) (a : Int) : Int × Bool :=
  (wrap s w (-a), !inRange s w (-a))

def overflowing_abs (s : Bool) (w : Nat) (a : Int) : Int × Bool :=
  (wrap s w (absVal a), !inRange s w (absVal a))

def overflowing_pow (s : Bool) (w : Nat) (a : Int) (e : Nat) : Int × Bool :=
  (wrap s w (ipow a e), !inRange s w (ipow a e))

/-- The `overflowing_div` primitive: panics (modelled as `none`) when the
divisor is zero; otherwise the wrapped quotient with the overflow flag. -/
def overflowing_div (s : Bool) (w : Nat) (a b : Int) : Option (Int × Bool) :=
  if b = 0 then none
  else some (wrap s w (Int.tdiv a b), !inRange s w (Int.tdiv a b))

def overflowing_rem (s : Bool) (w : Nat) (a b : Int) : Option (Int × Bool) :=
  if b = 0 then none
  else some (wrap s w (Int.tmod a b), !inRange s w (Int.tdiv a b))

def overflowing_div_euclid (s : Bool) (w : Nat) (a b : Int) :
    Option (Int × Bool) :=
  if b = 0 then none
  else some (wrap s w (Int.ediv a b), !inRange s w (Int.ediv a b))

def overflowing_rem_euclid (s : Bool) (w : Nat) (a b : Int) :
    Option (Int × Bool) :=
  if b = 0 then none
  else some (wrap s w (Int.emod a b), !inRange s w (Int.ediv a b))

/-- The `overflowing_shl` primitive: shifts by the count modulo the width, and
reports overflow exactly when the count was at least the width. -/
def overflowing_shl (s : Bool) (w : Nat) (a : Int) (k : Nat) : Int × Bool :=
  (wrap s w (a * twoPow (k % w)), decide (w ≤ k))

def overflowing_shr (s : Bool) (w : Nat) (a : Int) (k : Nat) : Int × Bool :=
  (shiftRightVal a (k % w), decide (w ≤ k))

/-- The `Checked` wrapper of src/checked.rs: an integer that may be absent. -/
structure Checked where
  value : Option Int
deriving DecidableEq

/-- `Checked::and_then` (src/checked.rs lines 258 to 264): passes the integer
into a fallible computation, absent stays absent. -/
def Checked.and_then (x : Checked) (f : Int → Option Int) : Checked :=
  ⟨x.value.bind f⟩

/-- `Checked::or_insert`: if the integer is missing, sets it to a new value. -/
def Checked.or_insert (x : Checked) (t : Int) : Checked :=
  ⟨match x.value with
    | some a => some a
    | none => some t⟩

/-- `impl Add<Self> for Checked<T>` (src/checked.rs lines 391 to 397). -/
def Checked.add (s : Bool) (w : Nat) (x y : Checked) : Checked :=
  x.and_then fun a => y.value.bind fun b => checked_add s w a b

/-- `impl Add<T> for Checked<T>`: bare-integer right operand. -/
def Checked.add_bare (s : Bool) (w : Nat) (x : Checked) (t : Int) : Checked :=
  x.and_then fun a => checked_add s w a t

def Checked.sub (s : Bool) (w : Nat) (x y : Checked) : Checked :=
  x.and_then fun a => y.value.bind fun b => checked_sub s w a b

def Checked.sub_bare (s : Bool) (w : Nat) (x : Checked) (t : Int) : Checked :=
  x.and_then fun a => checked_sub s w a t

def Checked.mul (s : Bool) (w : Nat) (x y : Checked) : Checked :=
  x.and_then fun a => y.value.bind fun b => checked_mul s w a b

def Checked.mul_bare (s : Bool) (w : Nat) (x : Checked) (t : Int) : Checked :=
  x.and_then fun a => checked_mul s w a t

def Checked.div (s : Bool) (w : Nat) (x y : Checked) : Checked :=
  x.and_then fun a => y.value.bind fun b => checked_div s w a b

def Checked.div_bare (s : Bool) (w : Nat) (x : Checked) (t : Int) : Checked :=
  x.and_then fun a => checked_div s w a t

def Checked.rem (s : Bool) (w : Nat) (x y : Checked) : Checked :=
  x.and_then fun a => y.value.bind fun b => checked_rem s w a b

def Checked.rem_bare (s : Bool) (w : Nat) (x : Checked) (t : Int) : Checked :=
  x.and_then fun a => checked_rem s w a t

/-- `Checked::div_euclid` (src/checked.rs lines 61 to 65): defers to the
`checked_div_euclid` primitive, which yields `None` on a zero divisor. -/
def Checked.div_euclid (s : Bool) (w : Nat) (x y : Checked) : Checked :=
  x.and_then fun val => y.value.bind fun r => checked_div_euclid s w val r

/-- `Checked::rem_euclid` (src/checked.rs lines 69 to 73). -/
def Checked.rem_euclid (s : Bool) (w : Nat) (x y : Checked) : Checked :=
  x.and_then fun val => y.value.bind fun r => checked_rem_euclid s w val r

def Checked.neg (s : Bool) (w : Nat) (x : Checked) : Checked :=
  x.and_then fun a => checked_neg s w a

def Checked.abs (s : Bool) (w : Nat) (x : Checked) : Checked :=
  x.and_then fun a => checked_abs s w a

def Checked.pow (s : Bool) (w : Nat) (x : Checked) (e : Nat) : Checked :=
  x.and_then fun a => checked_pow s w a e

/-- `impl Shl<Checked<$t>> for Checked<T>` (src/checked.rs lines 681 to 687):
the right operand value is converted to `u32`, any failure gives absent. -/
def Checked.shl_self (s : Bool) (w : Nat) (x y : Checked) : Checked :=
  x.and_then fun val =>
    y.value.bind fun r => (toU32 r).bind fun k => checked_shl s w val k

/-- `impl Shl<$t> for Checked<T>` (src/checked.rs lines 697 to 703). -/
def Checked.shl_bare (s : Bool) (w : Nat) (x : Checked) (n : Int) : Checked :=
  x.and_then fun val => (toU32 n).bind fun k => checked_shl s w val k

def Checked.shr_self (s : Bool) (w : Nat) (x y : Checked) : Checked :=
  x.and_then fun val =>
    y.value.bind fun r => (toU32 r).bind fun k => checked_shr s w val k

def Checked.shr_bare (s : Bool) (w : Nat) (x : Checked) (n : Int) : Checked :=
  x.and_then fun val => (toU32 n).bind fun k => checked_shr s w val k

/-- The `Wrapping` wrapper of src/wrapping.rs. -/
structure Wrapping where
  value : Int
deriving DecidableEq

/-- `impl Add<Self> for Wrapping<T>` (src/wrapping.rs lines 146 to 152). -/
def Wrapping.add (s : Bool) (w : Nat) (x y : Wrapping) : Wrapping :=
  ⟨wrapping_add s w x.value y.value⟩

def Wrapping.add_bare (s : Bool) (w : Nat) (x : Wrapping) (t : Int) : Wrapping :=
  ⟨wrapping_add s w x.value t⟩

def Wrapping.sub (s : Bool) (w : Nat) (x y : Wrapping) : Wrapping :=
  ⟨wrapping_sub s w x.value y.value⟩

def Wrapping.mul (s : Bool) (w : Nat) (x y : Wrapping) : Wrapping :=
  ⟨wrapping_mul s w x.value y.value⟩

def Wrapping.neg (s : Bool) (w : Nat) (x : Wrapping) : Wrapping :=
  ⟨wrapping_neg s w x.value⟩

/-- `impl Div<Self> for Wrapping<T>` (src/wrapping.rs lines 322 to 328):
defers to `wrapping_div`, which panics (none) on a zero divisor. -/
def Wrapping.div (s : Bool) (w : Nat) (x y : Wrapping) : Option Wrapping :=
  (wrapping_div s w x.value y.value).map Wrapping.mk

def Wrapping.div_bare (s : Bool) (w : Nat) (x : Wrapping) (t : Int) :
    Option Wrapping :=
  (wrapping_div s w x.value t).map Wrapping.mk

def Wrapping.rem (s : Bool) (w : Nat) (x y : Wrapping) : Option Wrapping :=
  (wrapping_rem s w x.value y.value).map Wrapping.mk

def Wrapping.rem_bare (s : Bool) (w : Nat) (x : Wrapping) (t : Int) :
    Option Wrapping :=
  (wrapping_rem s w x.value t).map Wrapping.mk

/-- `Wrapping::div_euclid` (src/wrapping.rs lines 67 to 69). -/
def Wrapping.div_euclid (s : Bool) (w : Nat) (x y : Wrapping) :
    Option Wrapping :=
  (wrapping_div_euclid s w x.value y.value).map Wrapping.mk

/-- `Wrapping::rem_euclid` (src/wrapping.rs lines 93 to 95). -/
def Wrapping.rem_euclid (s : Bool) (w : Nat) (x y : Wrapping) :
    Option Wrapping :=
  (wrapping_rem_euclid s w x.value y.value).map Wrapping.mk

/-- `impl Shl<Wrapping<$t>> for Wrapping<T>` (src/wrapping.rs lines 436 to
446): the conversion failure of the shift amount is a panic (none). -/
def Wrapping.shl_self (s : Bool) (w : Nat) (x y : Wrapping) : Option Wrapping :=
  (toU32 y.value).map fun k => ⟨wrapping_shl s w x.value k⟩

/-- `impl Shl<$t> for Wrapping<T>` (src/wrapping.rs lines 456 to 465). -/
def Wrapping.shl_bare (s : Bool) (w : Nat) (x : Wrapping) (n : Int) :
    Option Wrapping :=
  (toU32 n).map fun k => ⟨wrapping_shl s w x.value k⟩

def Wrapping.shr_self (s : Bool) (w : Nat) (x y : Wrapping) : Option Wrapping :=
  (toU32 y.value).map fun k => ⟨wrapping_shr s w x.value k⟩

def Wrapping.shr_bare (s : Bool) (w : Nat) (x : Wrapping) (n : Int) :
    Option Wrapping :=
  (toU32 n).map fun k => ⟨wrapping_shr s w x.value k⟩

/-- The `Saturating` wrapper of src/saturating.rs. -/
structure Saturating where
  value : Int
deriving DecidableEq

/-- `impl Add<Self> for Saturating<T>` (src/saturating.rs lines 74 to 80). -/
def Saturating.add (s : Bool) (w : Nat) (x y : Saturating) : Saturating :=
  ⟨saturating_add s w x.value y.value⟩

def Saturating.add_bare (s : Bool) (w : Nat) (x : Saturating) (t : Int) :
    Saturating :=
  ⟨saturating_add s w x.value t⟩

def Saturating.sub (s : Bool) (w : Nat) (x y : Saturating) : Saturating :=
  ⟨saturating_sub s w x.value y.value⟩

def Saturating.mul (s : Bool) (w : Nat) (x y : Saturating) : Saturating :=
  ⟨saturating_mul s w x.value y.value⟩

/-- `Saturating::saturating_pow` (src/saturating.rs lines 39 to 41). -/
def Saturating.pow (s : Bool) (w : Nat) (x : Saturating) (e : Nat) :
    Saturating :=
  ⟨saturating_pow s w x.value e⟩

/-- Names of the arithmetic operator families a wrapper type can implement. -/
inductive OpName
  | add
  | sub
  | mul
  | div
  | rem
  | divEuclid
  | remEuclid
  | shlOp
  | shrOp
  | negOp
  | absOp
  | powOp
deriving DecidableEq

/-- The arithmetic operator families implemented for `Saturating` in
src/saturating.rs: the `Add`, `Sub` and `Mul` operator impl blocks and the
`saturating_pow` method.  The file defines no division, remainder, shift,
negation or absolute-value operation. -/
def Saturating.implementedOps : List OpName :=
  [OpName.add, OpName.sub, OpName.mul, OpName.powOp]

/-- The `Overflowing` wrapper of src/overflowing.rs: a wrapped value plus a
sticky overflow flag. -/
structure Overflowing where
  value : Int
  has_overflowed : Bool
deriving DecidableEq

/-- `Overflowing::apply` (src/overflowing.rs lines 105 to 112): applies an
overflow-reporting function to the value and ORs the fresh signal into the
flag. -/
def Overflowing.apply (x : Overflowing) (f : Int → Int × Bool) : Overflowing :=
  ⟨(f x.value).1, x.has_overflowed || (f x.value).2⟩

/-- `Overflowing::bin_apply` (src/overflowing.rs lines 115 to 127): applies an
overflow-reporting binary function and ORs both operand flags with the fresh
signal. -/
def Overflowing.bin_apply (x y : Overflowing) (f : Int → Int → Int × Bool) :
    Overflowing :=
  ⟨(f x.value y.value).1,
   x.has_overflowed || y.has_overflowed || (f x.value y.value).2⟩

/-- `impl Add<Self> for Overflowing<T>` (src/overflowing.rs lines 171 to 177). -/
def Overflowing.add (s : Bool) (w : Nat) (x y : Overflowing) : Overflowing :=
  x.bin_apply y fun a b => overflowing_add s w a b

/-- `impl Add<T> for Overflowing<T>` (src/overflowing.rs lines 187 to 193). -/
def Overflowing.add_bare (s : Bool) (w : Nat) (x : Overflowing) (t : Int) :
    Overflowing :=
  x.apply fun val => overflowing_add s w val t

def Overflowing.sub (s : Bool) (w : Nat) (x y : Overflowing) : Overflowing :=
  x.bin_apply y fun a b => overflowing_sub s w a b

def Overflowing.sub_bare (s : Bool) (w : Nat) (x : Overflowing) (t : Int) :
    Overflowing :=
  x.apply fun val => overflowing_sub s w val t

def Overflowing.mul (s : Bool) (w : Nat) (x y : Overflowing) : Overflowing :=
  x.bin_apply y fun a b => overflowing_mul s w a b

def Overflowing.mul_bare (s : Bool) (w : Nat) (x : Overflowing) (t : Int) :
    Overflowing :=
  x.apply fun val => overflowing_mul s w val t

def Overflowing.neg (s : Bool) (w : Nat) (x : Overflowing) : Overflowing :=
  x.apply fun val => overflowing_neg s w val

def Overflowing.abs (s : Bool) (w : Nat) (x : Overflowing) : Overflowing :=
  x.apply fun val => overflowing_abs s w val

def Overflowing.pow (s : Bool) (w : Nat) (x : Overflowing) (e : Nat) :
    Overflowing :=
  x.apply fun val => overflowing_pow s w val e

/-- `impl Div<Self> for Overflowing<T>` (src/overflowing.rs lines 347 to 353):
the `overflowing_div` primitive panics (none) on a zero divisor; otherwise the
flags of both operands are ORed with the fresh signal, as in `bin_apply`. -/
def Overflowing.div (s : Bool) (w : Nat) (x y : Overflowing) :
    Option Overflowing :=
  (overflowing_div s w x.value y.value).map fun p =>
    ⟨p.1, x.has_overflowed || y.has_overflowed || p.2⟩

def Overflowing.div_bare (s : Bool) (w : Nat) (x : Overflowing) (t : Int) :
    Option Overflowing :=
  (overflowing_div s w x.value t).map fun p =>
    ⟨p.1, x.has_overflowed || p.2⟩

def Overflowing.rem (s : Bool) (w : Nat) (x y : Overflowing) :
    Option Overflowing :=
  (overflowing_rem s w x.value y.value).map fun p =>
    ⟨p.1, x.has_overflowed || y.has_overflowed || p.2⟩

def Overflowing.rem_bare (s : Bool) (w : Nat) (x : Overflowing) (t : Int) :
    Option Overflowing :=
  (overflowing_rem s w x.value t).map fun p =>
    ⟨p.1, x.has_overflowed || p.2⟩

/-- `Overflowing::div_euclid` (src/overflowing.rs lines 54 to 60). -/
def Overflowing.div_euclid (s : Bool) (w : Nat) (x y : Overflowing) :
    Option Overflowing :=
  (overflowing_div_euclid s w x.value y.value).map fun p =>
    ⟨p.1, x.has_overflowed || y.has_overflowed || p.2⟩

/-- `Overflowing::rem_euclid` (src/overflowing.rs lines 71 to 77). -/
def Overflowing.rem_euclid (s : Bool) (w : Nat) (x y : Overflowing) :
    Option Overflowing :=
  (overflowing_rem_euclid s w x.value y.value).map fun p =>
    ⟨p.1, x.has_overflowed || y.has_overflowed || p.2⟩

/-- `impl Shl<Overflowing<$t>> for Overflowing<T>` (src/overflowing.rs lines
461 to 472): converts the right operand value to `u32` (panicking on failure)
and applies `overflowing_shl` through `bin_apply`. -/
def Overflowing.shl_self (s : Bool) (w : Nat) (x y : Overflowing) :
    Option Overflowing :=
  (toU32 y.value).map fun k =>
    ⟨(overflowing_shl s w x.value k).1,
     x.has_overflowed || y.has_overflowed || (overflowing_shl s w x.value k).2⟩

/-- `impl Shl<$t> for Overflowing<T>` (src/overflowing.rs lines 482 to 493). -/
def Overflowing.shl_bare (s : Bool) (w : Nat) (x : Overflowing) (n : Int) :
    Option Overflowing :=
  (toU32 n).map fun k =>
    ⟨(overflowing_shl s w x.value k).1,
     x.has_overflowed || (overflowing_shl s w x.value k).2⟩

/-- `impl Shr<Overflowing<$t>> for Overflowing<T>` (src/overflowing.rs lines
527 to 538): this impl calls the `overflowing_shr` primitive. -/
def Overflowing.shr_self (s : Bool) (w : Nat) (x y : Overflowing) :
    Option Overflowing :=
  (toU32 y.value).map fun k =>
    ⟨(overflowing_shr s w x.value k).1,
     x.has_overflowed || y.has_overflowed || (overflowing_shr s w x.value k).2⟩

/-- `impl Shr<$t> for Overflowing<T>` (src/overflowing.rs lines 548 to 558):
NOTE this impl in the source calls the `overflowing_shl` primitive, not
`overflowing_shr`; the embedding reproduces that faithfully. -/
def Overflowing.shr_bare (s : Bool) (w : Nat) (x : Overflowing) (n : Int) :
    Option Overflowing :=
  (toU32 n).map fun k =>
    ⟨(overflowing_shl s w x.value k).1,
     x.has_overflowed || (overflowing_shl s w x.value k).2⟩

/-- `impl PartialEq<T> for Overflowing<T>` (src/overflowing.rs lines 129 to
133): compares only the stored value against the bare integer. -/
def Overflowing.eq_bare (x : Overflowing) (t : Int) : Bool :=
  decide (x.value = t)

/-- `impl PartialOrd<T> for Overflowing<T>` (src/overflowing.rs lines 135 to
139): compares only the stored value against the bare integer. -/
def Overflowing.cmp_bare (x : Overflowing) (t : Int) : Ordering :=
  compare x.value t

/-- The derived `PartialEq` between two `Overflowing` values
(src/overflowing.rs line 35): field-wise equality, so both the value and the
flag must agree. -/
def Overflowing.eq_derived (x y : Overflowing) : Bool :=
  decide (x.value = y.value) && (x.has_overflowed == y.has_overflowed)

/-- The policies a bare integer can be wrapped into. -/
inductive Policy
  | checked
  | wrapping
  | saturating
  | overflowing
deriving DecidableEq

/-- The conversion methods of the `Ensure` trait (src/lib.rs lines 99 to 108):
`checked`, `wrapping` and `saturating`.  The crate root declares no
`overflowing` module and the trait has no fourth method. -/
def Ensure.methods : List Policy :=
  [Policy.checked, Policy.wrapping, Policy.saturating]

/-- `Ensure::checked`, deferring to `From<T> for Checked<T>`
(src/checked.rs lines 379 to 383): always present. -/
def Ensure.toChecked (a : Int) : Checked := ⟨some a⟩

/-- `Ensure::wrapping`, deferring to `From<T> for Wrapping<T>`
(src/wrapping.rs lines 140 to 144). -/
def Ensure.toWrapping (a : Int) : Wrapping := ⟨a⟩

/-- `Ensure::saturating`, deferring to `From<T> for Saturating<T>`
(src/saturating.rs lines 68 to 72). -/
def Ensure.toSaturating (a : Int) : Saturating := ⟨a⟩

/-- `From<T> for Overflowing<T>` (src/overflowing.rs lines 153 to 160): the
flag starts false.  This conversion exists in src/overflowing.rs but is not a
method of the `Ensure` trait. -/
def Overflowing.fromBare (a : Int) : Overflowing := ⟨a, false⟩

theorem twoPow_pos (w : Nat) : 0 < twoPow w := by
  unfold twoPow
  exact_mod_cast Nat.pos_pow_of_pos w (by decide)

theorem twoPow_succ_eq (w : Nat) (hw : 0 < w) :
    twoPow w = 2 * twoPow (w - 1) := by
  unfold twoPow
  obtain ⟨v, rfl⟩ : ∃ v, w = v + 1 := ⟨w - 1, (Nat.succ_pred_eq_of_pos hw).symm⟩
  push_cast [pow_succ]
  ring

theorem minVal_le_maxVal (s : Bool) (w : Nat) : minVal s w ≤ maxVal s w := by
  cases s <;> simp only [minVal, maxVal, if_true, if_false, Bool.false_eq_true]
  · have := twoPow_pos w
    omega
  · have := twoPow_pos (w - 1)
    omega

/-- On representable inputs, modular reduction is the identity. -/
theorem wrap_eq_of_inRange (s : Bool) (w : Nat) (hw : 0 < w) (x : Int)
    (hx : inRange s w x = true) : wrap s w x = x := by
  simp only [inRange, Bool.and_eq_true, decide_eq_true_eq] at hx
  obtain ⟨h1, h2⟩ := hx
  cases s
  · simp only [minVal, maxVal, Bool.false_eq_true, if_false] at h1 h2
    simp only [wrap, Bool.false_eq_true, if_false]
    exact Int.emod_eq_of_lt h1 (by omega)
  · simp only [minVal, maxVal, if_true] at h1 h2
    simp only [wrap, if_true]
    have hsucc := twoPow_succ_eq w hw
    have : (x + twoPow (w - 1)) % twoPow w = x + twoPow (w - 1) :=
      Int.emod_eq_of_lt (by omega) (by omega)
    omega

/-- Modular reduction lands in the representable range. -/
theorem wrap_inRange (s : Bool) (w : Nat) (hw : 0 < w) (x : Int) :
    inRange s w (wrap s w x) = true := by
  simp only [inRange, Bool.and_eq_true, decide_eq_true_eq]
  cases s
  · simp only [wrap, minVal, maxVal, Bool.false_eq_true, if_false]
    have hpos := twoPow_pos w
    have h1 := Int.emod_nonneg x (by omega : twoPow w ≠ 0)
    have h2 := Int.emod_lt_of_pos x hpos
    omega
  · simp only [wrap, minVal, maxVal, if_true]
    have hpos := twoPow_pos w
    have hsucc := twoPow_succ_eq w hw
    have h1 := Int.emod_nonneg (x + twoPow (w - 1)) (by omega : twoPow w ≠ 0)
    have h2 := Int.emod_lt_of_pos (x + twoPow (w - 1)) hpos
    omega

/-- Modular reduction preserves the residue class modulo `2 ^ w`. -/
theorem wrap_emod (s : Bool) (w : Nat) (x : Int) :
    wrap s w x % twoPow w = x % twoPow w := by
  cases s
  · simp only [wrap, Bool.false_eq_true, if_false, Int.emod_emod_of_dvd _ dvd_rfl]
  · simp only [wrap, if_true]
    conv_lhs => rw [Int.sub_emod, Int.emod_emod_of_dvd _ dvd_rfl, ← Int.sub_emod]
    rw [add_sub_cancel_right]

/-- Clamping is the identity on representable inputs. -/
theorem clamp_eq_of_inRange (s : Bool) (w : Nat) (x : Int)
    (hx : inRange s w x = true) : clamp s w x = x := by
  simp only [inRange, Bool.and_eq_true, decide_eq_true_eq] at hx
  simp only [clamp, if_neg (by omega : ¬x < minVal s w),
    if_neg (by omega : ¬maxVal s w < x)]

/-- Clamping an overlarge input yields the greatest representable value. -/
theorem clamp_eq_max (s : Bool) (w : Nat) (x : Int) (hx : maxVal s w < x) :
    clamp s w x = maxVal s w := by
  have hmm := minVal_le_maxVal s w
  simp only [clamp, if_neg (by omega : ¬x < minVal s w), if_pos hx]

/-- Clamping an undersized input yields the least representable value. -/
theorem clamp_eq_min (s : Bool) (w : Nat) (x : Int) (hx : x < minVal s w) :
    clamp s w x = minVal s w := by
  simp only [clamp, if_pos hx]

/-- Claim C1: for representable `a` and `b`, when the exact sum is
representable, checked addition is present with value `a + b`, saturating
addition has value `a + b`, and overflowing addition has value `a + b` with a
false flag; when the exact sum is unrepresentable, checked addition is absent,
saturating addition clamps to the greatest value (overflow toward positive) or
the least value (toward negative), and overflowing addition sets the flag and
stores the modularly wrapped sum. -/
theorem C1_add_three_policies (s : Bool) (w : Nat) (hw : 0 < w) (a b : Int)
    (ha : inRange s w a = true) (hb : inRange s w b = true) :
    (inRange s w (a + b) = true →
      Checked.add s w ⟨some a⟩ ⟨some b⟩ = ⟨some (a + b)⟩ ∧
      Saturating.add s w ⟨a⟩ ⟨b⟩ = ⟨a + b⟩ ∧
      Overflowing.add s w ⟨a, false⟩ ⟨b, false⟩ = ⟨a + b, false⟩) ∧
    (inRange s w (a + b) = false →
      Checked.add s w ⟨some a⟩ ⟨some b⟩ = ⟨none⟩ ∧
      (maxVal s w < a + b → Saturating.add s w ⟨a⟩ ⟨b⟩ = ⟨maxVal s w⟩) ∧
      (a + b < minVal s w → Saturating.add s w ⟨a⟩ ⟨b⟩ = ⟨minVal s w⟩) ∧
      Overflowing.add s w ⟨a, false⟩ ⟨b, false⟩ = ⟨wrap s w (a + b), true⟩ ∧
      wrap s w (a + b) % twoPow w = (a + b) % twoPow w ∧
      inRange s w (wrap s w (a + b)) = true) := by
  constructor
  · intro h
    refine ⟨?_, ?_, ?_⟩
    · simp [Checked.add, Checked.and_then, checked_add, h]
    · simp only [Saturating.add, saturating_add]
      rw [clamp_eq_of_inRange s w _ h]
    · simp only [Overflowing.add, Overflowing.bin_apply, overflowing_add]
      rw [wrap_eq_of_inRange s w hw _ h]
      simp [h]
  · intro h
    refine ⟨?_, ?_, ?_, ?_, ?_, ?_⟩
    · simp [Checked.add, Checked.and_then, checked_add, h]
    · intro hmax
      simp only [Saturating.add, saturating_add]
      rw [clamp_eq_max s w _ hmax]
    · intro hmin
      simp only [Saturating.add, saturating_add]
      rw [clamp_eq_min s w _ hmin]
    · simp [Overflowing.add, Overflowing.bin_apply, overflowing_add, h]
    · exact wrap_emod s w (a + b)
    · exact wrap_inRange s w hw (a + b)

/-- Witness for C1 at the signed 8-bit type with `a = 100`, `b = 50`
(the sum 150 overflows). -/
theorem C1_add_three_policies_witness :
    0 < 8 ∧ inRange true 8 100 = true ∧ inRange true 8 50 = true ∧
    ((inRange true 8 (100 + 50) = true →
      Checked.add true 8 ⟨some 100⟩ ⟨some 50⟩ = ⟨some (100 + 50)⟩ ∧
      Saturating.add true 8 ⟨100⟩ ⟨50⟩ = ⟨100 + 50⟩ ∧
      Overflowing.add true 8 ⟨100, false⟩ ⟨50, false⟩ = ⟨100 + 50, false⟩) ∧
    (inRange true 8 (100 + 50) = false →
      Checked.add true 8 ⟨some 100⟩ ⟨some 50⟩ = ⟨none⟩ ∧
      (maxVal true 8 < 100 + 50 → Saturating.add true 8 ⟨100⟩ ⟨50⟩ = ⟨maxVal true 8⟩) ∧
      (100 + 50 < minVal true 8 → Saturating.add true 8 ⟨100⟩ ⟨50⟩ = ⟨minVal true 8⟩) ∧
      Overflowing.add true 8 ⟨100, false⟩ ⟨50, false⟩ = ⟨wrap true 8 (100 + 50), true⟩ ∧
      wrap true 8 (100 + 50) % twoPow 8 = (100 + 50) % twoPow 8 ∧
      inRange true 8 (wrap true 8 (100 + 50)) = true)) :=
  ⟨by decide, by decide, by decide,
   C1_add_three_policies true 8 (by decide) 100 50 (by decide) (by decide)⟩

/-- Claim C2: wrapping addition stores a representable value congruent to the
exact sum modulo `2 ^ w`, namely the twos-complement reduction of the sum. -/
theorem C2_wrapping_add_modular (s : Bool) (w : Nat) (hw : 0 < w) (a b : Int)
    (ha : inRange s w a = true) (hb : inRange s w b = true) :
    Wrapping.add s w ⟨a⟩ ⟨b⟩ = ⟨wrap s w (a + b)⟩ ∧
    (Wrapping.add s w ⟨a⟩ ⟨b⟩).value % twoPow w = (a + b) % twoPow w ∧
    inRange s w (Wrapping.add s w ⟨a⟩ ⟨b⟩).value = true := by
  refine ⟨rfl, ?_, ?_⟩
  · exact wrap_emod s w (a + b)
  · exact wrap_inRange s w hw (a + b)

/-- Witness for C2 at the signed 8-bit type with `a = 120`, `b = 10`. -/
theorem C2_wrapping_add_modular_witness :
    0 < 8 ∧ inRange true 8 120 = true ∧ inRange true 8 10 = true ∧
    (Wrapping.add true 8 ⟨120⟩ ⟨10⟩ = ⟨wrap true 8 (120 + 10)⟩ ∧
    (Wrapping.add true 8 ⟨120⟩ ⟨10⟩).value % twoPow 8 = (120 + 10) % twoPow 8 ∧
    inRange true 8 (Wrapping.add true 8 ⟨120⟩ ⟨10⟩).value = true) :=
  ⟨by decide, by decide, by decide,
   C2_wrapping_add_modular true 8 (by decide) 120 10 (by decide) (by decide)⟩

/-- Claim C3: every arithmetic operation on an absent checked integer, with any
operand, yields an absent result; the explicit reset `or_insert` restores a
present value. -/
theorem C3_absent_absorbing (s : Bool) (w : Nat) (y : Checked) (t : Int)
    (n : Int) (e : Nat) :
    Checked.add s w ⟨none⟩ y = ⟨none⟩ ∧
    Checked.add_bare s w ⟨none⟩ t = ⟨none⟩ ∧
    Checked.sub s w ⟨none⟩ y = ⟨none⟩ ∧
    Checked.sub_bare s w ⟨none⟩ t = ⟨none⟩ ∧
    Checked.mul s w ⟨none⟩ y = ⟨none⟩ ∧
    Checked.mul_bare s w ⟨none⟩ t = ⟨none⟩ ∧
    Checked.div s w ⟨none⟩ y = ⟨none⟩ ∧
    Checked.div_bare s w ⟨none⟩ t = ⟨none⟩ ∧
    Checked.rem s w ⟨none⟩ y = ⟨none⟩ ∧
    Checked.rem_bare s w ⟨none⟩ t = ⟨none⟩ ∧
    Checked.div_euclid s w ⟨none⟩ y = ⟨none⟩ ∧
    Checked.rem_euclid s w ⟨none⟩ y = ⟨none⟩ ∧
    Checked.neg s w ⟨none⟩ = ⟨none⟩ ∧
    Checked.abs s w ⟨none⟩ = ⟨none⟩ ∧
    Checked.pow s w ⟨none⟩ e = ⟨none⟩ ∧
    Checked.shl_self s w ⟨none⟩ y = ⟨none⟩ ∧
    Checked.shl_bare s w ⟨none⟩ n = ⟨none⟩ ∧
    Checked.shr_self s w ⟨none⟩ y = ⟨none⟩ ∧
    Checked.shr_bare s w ⟨none⟩ n = ⟨none⟩ ∧
    Checked.or_insert ⟨none⟩ t = ⟨some t⟩ :=
  ⟨rfl, rfl, rfl, rfl, rfl, rfl, rfl, rfl, rfl, rfl,
   rfl, rfl, rfl, rfl, rfl, rfl, rfl, rfl, rfl, rfl⟩

/-- Claim C4: for every arithmetic operation on `Overflowing`, and all operand
flag states, the resulting flag is the OR of the left operand flag, the right
operand flag when the right operand is itself an `Overflowing` (a bare-integer
right operand contributes no flag), and the fresh overflow signal of the
operation; consequently, once the left operand flag is true, no arithmetic
operation produces a result with a false flag. -/
theorem C4_flag_or_monotonic (s : Bool) (w : Nat) (x y : Overflowing)
    (f : Int → Int → Int × Bool) (g : Int → Int × Bool) (t : Int) (e : Nat) :
    (x.bin_apply y f).has_overflowed
      = (x.has_overflowed || y.has_overflowed || (f x.value y.value).2) ∧
    (x.apply g).has_overflowed = (x.has_overflowed || (g x.value).2) ∧
    (Overflowing.add s w x y).has_overflowed
      = (x.has_overflowed || y.has_overflowed
          || !inRange s w (x.value + y.value)) ∧
    (Overflowing.add_bare s w x t).has_overflowed
      = (x.has_overflowed || !inRange s w (x.value + t)) ∧
    (Overflowing.sub s w x y).has_overflowed
      = (x.has_overflowed || y.has_overflowed
          || !inRange s w (x.value - y.value)) ∧
    (Overflowing.sub_bare s w x t).has_overflowed
      = (x.has_overflowed || !inRange s w (x.value - t)) ∧
    (Overflowing.mul s w x y).has_overflowed
      = (x.has_overflowed || y.has_overflowed
          || !inRange s w (x.value * y.value)) ∧
    (Overflowing.mul_bare s w x t).has_overflowed
      = (x.has_overflowed || !inRange s w (x.value * t)) ∧
    (Overflowing.neg s w x).has_overflowed
      = (x.has_overflowed || !inRange s w (-x.value)) ∧
    (Overflowing.abs s w x).has_overflowed
      = (x.has_overflowed || !inRange s w (absVal x.value)) ∧
    (Overflowing.pow s w x e).has_overflowed
      = (x.has_overflowed || !inRange s w (ipow x.value e)) ∧
    (∀ r, Overflowing.div s w x y = some r →
      r.has_overflowed = (x.has_overflowed || y.has_overflowed
        || !inRange s w (Int.tdiv x.value y.value))) ∧
    (∀ r, Overflowing.div_bare s w x t = some r →
      r.has_overflowed
        = (x.has_overflowed || !inRange s w (Int.tdiv x.value t))) ∧
    (∀ r, Overflowing.rem s w x y = some r →
      r.has_overflowed = (x.has_overflowed || y.has_overflowed
        || !inRange s w (Int.tdiv x.value y.value))) ∧
    (∀ r, Overflowing.rem_bare s w x t = some r →
      r.has_overflowed
        = (x.has_overflowed || !inRange s w (Int.tdiv x.value t))) ∧
    (∀ r, Overflowing.div_euclid s w x y = some r →
      r.has_overflowed = (x.has_overflowed || y.has_overflowed
        || !inRange s w (Int.ediv x.value y.value))) ∧
    (∀ r, Overflowing.rem_euclid s w x y = some r →
      r.has_overflowed = (x.has_overflowed || y.has_overflowed
        || !inRange s w (Int.ediv x.value y.value))) ∧
    (∀ r k, toU32 y.value = some k → Overflowing.shl_self s w x y = some r →
      r.has_overflowed
        = (x.has_overflowed || y.has_overflowed || decide (w ≤ k))) ∧
    (∀ r k, toU32 t = some k → Overflowing.shl_bare s w x t = some r →
      r.has_overflowed = (x.has_overflowed || decide (w ≤ k))) ∧
    (∀ r k, toU32 y.value = some k → Overflowing.shr_self s w x y = some r →
      r.has_overflowed
        = (x.has_overflowed || y.has_overflowed || decide (w ≤ k))) ∧
    (∀ r k, toU32 t = some k → Overflowing.shr_bare s w x t = some r →
      r.has_overflowed = (x.has_overflowed || decide (w ≤ k))) ∧
    (x.has_overflowed = true →
      (x.bin_apply y f).has_overflowed = true ∧
      (x.apply g).has_overflowed = true ∧
      (Overflowing.add s w x y).has_overflowed = true ∧
      (Overflowing.add_bare s w x t).has_overflowed = true ∧
      (Overflowing.sub s w x y).has_overflowed = true ∧
      (Overflowing.sub_bare s w x t).has_overflowed = true ∧
      (Overflowing.mul s w x y).has_overflowed = true ∧
      (Overflowing.mul_bare s w x t).has_overflowed = true ∧
      (Overflowing.neg s w x).has_overflowed = true ∧
      (Overflowing.abs s w x).has_overflowed = true ∧
      (Overflowing.pow s w x e).has_overflowed = true ∧
      ((Overflowing.div s w x y).all fun r => r.has_overflowed) = true ∧
      ((Overflowing.div_bare s w x t).all fun r => r.has_overflowed) = true ∧
      ((Overflowing.rem s w x y).all fun r => r.has_overflowed) = true ∧
      ((Overflowing.rem_bare s w x t).all fun r => r.has_overflowed) = true ∧
      ((Overflowing.div_euclid s w x y).all fun r => r.has_overflowed) = true ∧
      ((Overflowing.rem_euclid s w x y).all fun r => r.has_overflowed) = true ∧
      ((Overflowing.shl_self s w x y).all fun r => r.has_overflowed) = true ∧
      ((Overflowing.shl_bare s w x t).all fun r => r.has_overflowed) = true ∧
      ((Overflowing.shr_self s w x y).all fun r => r.has_overflowed) = true ∧
      ((Overflowing.shr_bare s w x t).all fun r => r.has_overflowed) = true) := by
  refine ⟨rfl, rfl, rfl, rfl, rfl, rfl, rfl, rfl, rfl, rfl, rfl,
    ?_, ?_, ?_, ?_, ?_, ?_, ?_, ?_, ?_, ?_, ?_⟩
  · intro r hr
    rcases eq_or_ne y.value 0 with h0 | h0
    · simp [Overflowing.div, overflowing_div, h0] at hr
    · simp [Overflowing.div, overflowing_div, h0] at hr
      subst hr
      rfl
  · intro r hr
    rcases eq_or_ne t 0 with h0 | h0
    · simp [Overflowing.div_bare, overflowing_div, h0] at hr
    · simp [Overflowing.div_bare, overflowing_div, h0] at hr
      subst hr
      rfl
  · intro r hr
    rcases eq_or_ne y.value 0 with h0 | h0
    · simp [Overflowing.rem, overflowing_rem, h0] at hr
    · simp [Overflowing.rem, overflowing_rem, h0] at hr
      subst hr
      rfl
  · intro r hr
    rcases eq_or_ne t 0 with h0 | h0
    · simp [Overflowing.rem_bare, overflowing_rem, h0] at hr
    · simp [Overflowing.rem_bare, overflowing_rem, h0] at hr
      subst hr
      rfl
  · intro r hr
    rcases eq_or_ne y.value 0 with h0 | h0
    · simp [Overflowing.div_euclid, overflowing_div_euclid, h0] at hr
    · simp [Overflowing.div_euclid, overflowing_div_euclid, h0] at hr
      subst hr
      rfl
  · intro r hr
    rcases eq_or_ne y.value 0 with h0 | h0
    · simp [Overflowing.rem_euclid, overflowing_rem_euclid, h0] at hr
    · simp [Overflowing.rem_euclid, overflowing_rem_euclid, h0] at hr
      subst hr
      rfl
  · intro r k hk hr
    simp [Overflowing.shl_self, hk] at hr
    subst hr
    rfl
  · intro r k hk hr
    simp [Overflowing.shl_bare, hk] at hr
    subst hr
    rfl
  · intro r k hk hr
    simp [Overflowing.shr_self, hk] at hr
    subst hr
    rfl
  · intro r k hk hr
    simp [Overflowing.shr_bare, hk] at hr
    subst hr
    rfl
  · intro hx
    refine ⟨?_, ?_, ?_, ?_, ?_, ?_, ?_, ?_, ?_, ?_, ?_,
      ?_, ?_, ?_, ?_, ?_, ?_, ?_, ?_, ?_, ?_⟩
    · simp [Overflowing.bin_apply, hx]
    · simp [Overflowing.apply, hx]
    · simp [Overflowing.add, Overflowing.bin_apply, hx]
    · simp [Overflowing.add_bare, Overflowing.apply, hx]
    · simp [Overflowing.sub, Overflowing.bin_apply, hx]
    · simp [Overflowing.sub_bare, Overflowing.apply, hx]
    · simp [Overflowing.mul, Overflowing.bin_apply, hx]
    · simp [Overflowing.mul_bare, Overflowing.apply, hx]
    · simp [Overflowing.neg, Overflowing.apply, hx]
    · simp [Overflowing.abs, Overflowing.apply, hx]
    · simp [Overflowing.pow, Overflowing.apply, hx]
    · cases ho : overflowing_div s w x.value y.value <;>
        simp [Overflowing.div, ho, hx, Option.all]
    · cases ho : overflowing_div s w x.value t <;>
        simp [Overflowing.div_bare, ho, hx, Option.all]
    · cases ho : overflowing_rem s w x.value y.value <;>
        simp [Overflowing.rem, ho, hx, Option.all]
    · cases ho : overflowing_rem s w x.value t <;>
        simp [Overflowing.rem_bare, ho, hx, Option.all]
    · cases ho : overflowing_div_euclid s w x.value y.value <;>
        simp [Overflowing.div_euclid, ho, hx, Option.all]
    · cases ho : overflowing_rem_euclid s w x.value y.value <;>
        simp [Overflowing.rem_euclid, ho, hx, Option.all]
    · cases ho : toU32 y.value <;>
        simp [Overflowing.shl_self, ho, hx, Option.all]
    · cases ho : toU32 t <;>
        simp [Overflowing.shl_bare, ho, hx, Option.all]
    · cases ho : toU32 y.value <;>
        simp [Overflowing.shr_self, ho, hx, Option.all]
    · cases ho : toU32 t <;>
        simp [Overflowing.shr_bare, ho, hx, Option.all]

/-- Witness for C4 at the unsigned 8-bit type with a left operand whose flag
is already set and a right operand whose flag is clear. -/
theorem C4_flag_or_monotonic_witness :
    ((Overflowing.mk 3 true).bin_apply ⟨4, false⟩
        fun a b => (a + b, false)).has_overflowed
      = (true || false || false) ∧
    ((Overflowing.mk 3 true).apply fun a => (-a, false)).has_overflowed
      = (true || false) ∧
    (Overflowing.add false 8 ⟨3, true⟩ ⟨4, false⟩).has_overflowed
      = (true || false || !inRange false 8 (3 + 4)) ∧
    (Overflowing.add_bare false 8 ⟨3, true⟩ 5).has_overflowed
      = (true || !inRange false 8 (3 + 5)) ∧
    (Overflowing.sub false 8 ⟨3, true⟩ ⟨4, false⟩).has_overflowed
      = (true || false || !inRange false 8 (3 - 4)) ∧
    (Overflowing.sub_bare false 8 ⟨3, true⟩ 5).has_overflowed
      = (true || !inRange false 8 (3 - 5)) ∧
    (Overflowing.mul false 8 ⟨3, true⟩ ⟨4, false⟩).has_overflowed
      = (true || false || !inRange false 8 (3 * 4)) ∧
    (Overflowing.mul_bare false 8 ⟨3, true⟩ 5).has_overflowed
      = (true || !inRange false 8 (3 * 5)) ∧
    (Overflowing.neg false 8 ⟨3, true⟩).has_overflowed
      = (true || !inRange false 8 (-3)) ∧
    (Overflowing.abs false 8 ⟨3, true⟩).has_overflowed
      = (true || !inRange false 8 (absVal 3)) ∧
    (Overflowing.pow false 8 ⟨3, true⟩ 2).has_overflowed
      = (true || !inRange false 8 (ipow 3 2)) ∧
    (∀ r, Overflowing.div false 8 ⟨3, true⟩ ⟨4, false⟩ = some r →
      r.has_overflowed = (true || false || !inRange false 8 (Int.tdiv 3 4))) ∧
    (∀ r, Overflowing.div_bare false 8 ⟨3, true⟩ 5 = some r →
      r.has_overflowed = (true || !inRange false 8 (Int.tdiv 3 5))) ∧
    (∀ r, Overflowing.rem false 8 ⟨3, true⟩ ⟨4, false⟩ = some r →
      r.has_overflowed = (true || false || !inRange false 8 (Int.tdiv 3 4))) ∧
    (∀ r, Overflowing.rem_bare false 8 ⟨3, true⟩ 5 = some r →
      r.has_overflowed = (true || !inRange false 8 (Int.tdiv 3 5))) ∧
    (∀ r, Overflowing.div_euclid false 8 ⟨3, true⟩ ⟨4, false⟩ = some r →
      r.has_overflowed = (true || false || !inRange false 8 (Int.ediv 3 4))) ∧
    (∀ r, Overflowing.rem_euclid false 8 ⟨3, true⟩ ⟨4, false⟩ = some r →
      r.has_overflowed = (true || false || !inRange false 8 (Int.ediv 3 4))) ∧
    (∀ r k, toU32 4 = some k →
      Overflowing.shl_self false 8 ⟨3, true⟩ ⟨4, false⟩ = some r →
      r.has_overflowed = (true || false || decide (8 ≤ k))) ∧
    (∀ r k, toU32 5 = some k →
      Overflowing.shl_bare false 8 ⟨3, true⟩ 5 = some r →
      r.has_overflowed = (true || decide (8 ≤ k))) ∧
    (∀ r k, toU32 4 = some k →
      Overflowing.shr_self false 8 ⟨3, true⟩ ⟨4, false⟩ = some r →
      r.has_overflowed = (true || false || decide (8 ≤ k))) ∧
    (∀ r k, toU32 5 = some k →
      Overflowing.shr_bare false 8 ⟨3, true⟩ 5 = some r →
      r.has_overflowed = (true || decide (8 ≤ k))) ∧
    ((Overflowing.mk 3 true).has_overflowed = true →
      ((Overflowing.mk 3 true).bin_apply ⟨4, false⟩
        fun a b => (a + b, false)).has_overflowed = true ∧
      ((Overflowing.mk 3 true).apply fun a => (-a, false)).has_overflowed = true ∧
      (Overflowing.add false 8 ⟨3, true⟩ ⟨4, false⟩).has_overflowed = true ∧
      (Overflowing.add_bare false 8 ⟨3, true⟩ 5).has_overflowed = true ∧
      (Overflowing.sub false 8 ⟨3, true⟩ ⟨4, false⟩).has_overflowed = true ∧
      (Overflowing.sub_bare false 8 ⟨3, true⟩ 5).has_overflowed = true ∧
      (Overflowing.mul false 8 ⟨3, true⟩ ⟨4, false⟩).has_overflowed = true ∧
      (Overflowing.mul_bare false 8 ⟨3, true⟩ 5).has_overflowed = true ∧
      (Overflowing.neg false 8 ⟨3, true⟩).has_overflowed = true ∧
      (Overflowing.abs false 8 ⟨3, true⟩).has_overflowed = true ∧
      (Overflowing.pow false 8 ⟨3, true⟩ 2).has_overflowed = true ∧
      ((Overflowing.div false 8 ⟨3, true⟩ ⟨4, false⟩).all
        fun r => r.has_overflowed) = true ∧
      ((Overflowing.div_bare false 8 ⟨3, true⟩ 5).all
        fun r => r.has_overflowed) = true ∧
      ((Overflowing.rem false 8 ⟨3, true⟩ ⟨4, false⟩).all
        fun r => r.has_overflowed) = true ∧
      ((Overflowing.rem_bare false 8 ⟨3, true⟩ 5).all
        fun r => r.has_overflowed) = true ∧
      ((Overflowing.div_euclid false 8 ⟨3, true⟩ ⟨4, false⟩).all
        fun r => r.has_overflowed) = true ∧
      ((Overflowing.rem_euclid false 8 ⟨3, true⟩ ⟨4, false⟩).all
        fun r => r.has_overflowed) = true ∧
      ((Overflowing.shl_self false 8 ⟨3, true⟩ ⟨4, false⟩).all
        fun r => r.has_overflowed) = true ∧
      ((Overflowing.shl_bare false 8 ⟨3, true⟩ 5).all
        fun r => r.has_overflowed) = true ∧
      ((Overflowing.shr_self false 8 ⟨3, true⟩ ⟨4, false⟩).all
        fun r => r.has_overflowed) = true ∧
      ((Overflowing.shr_bare false 8 ⟨3, true⟩ 5).all
        fun r => r.has_overflowed) = true) :=
  C4_flag_or_monotonic false 8 ⟨3, true⟩ ⟨4, false⟩
    (fun a b => (a + b, false)) (fun a => (-a, false)) 5 2

/-- Counterexample for C5: the claim asserts zero-divisor fatality for the
division and remainder forms of `Saturating`, but src/saturating.rs implements
no division or remainder operation at all (only `Add`, `Sub`, `Mul` and
`saturating_pow`), so the claim as stated is false of the code. -/
theorem C5_counterexample :
    OpName.div ∉ Saturating.implementedOps ∧
    OpName.rem ∉ Saturating.implementedOps ∧
    OpName.divEuclid ∉ Saturating.implementedOps ∧
    OpName.remEuclid ∉ Saturating.implementedOps := by decide

/-- Claim C5 as amended: dividing by a zero divisor panics for the ordinary
and Euclidean division and remainder forms of `Wrapping` and `Overflowing`,
yields an absent result (no panic) for the ordinary and Euclidean forms of
`Checked` alike, and `Saturating` defines no division or remainder form. -/
theorem C5_div_by_zero_amended (s : Bool) (w : Nat) (x : Checked)
    (xw : Wrapping) (xo : Overflowing) (fo : Bool) :
    Wrapping.div s w xw ⟨0⟩ = none ∧
    Wrapping.div_bare s w xw 0 = none ∧
    Wrapping.rem s w xw ⟨0⟩ = none ∧
    Wrapping.rem_bare s w xw 0 = none ∧
    Wrapping.div_euclid s w xw ⟨0⟩ = none ∧
    Wrapping.rem_euclid s w xw ⟨0⟩ = none ∧
    Overflowing.div s w xo ⟨0, fo⟩ = none ∧
    Overflowing.div_bare s w xo 0 = none ∧
    Overflowing.rem s w xo ⟨0, fo⟩ = none ∧
    Overflowing.rem_bare s w xo 0 = none ∧
    Overflowing.div_euclid s w xo ⟨0, fo⟩ = none ∧
    Overflowing.rem_euclid s w xo ⟨0, fo⟩ = none ∧
    Checked.div s w x ⟨some 0⟩ = ⟨none⟩ ∧
    Checked.div_bare s w x 0 = ⟨none⟩ ∧
    Checked.rem s w x ⟨some 0⟩ = ⟨none⟩ ∧
    Checked.rem_bare s w x 0 = ⟨none⟩ ∧
    Checked.div_euclid s w x ⟨some 0⟩ = ⟨none⟩ ∧
    Checked.rem_euclid s w x ⟨some 0⟩ = ⟨none⟩ ∧
    OpName.div ∉ Saturating.implementedOps ∧
    OpName.rem ∉ Saturating.implementedOps := by
  obtain ⟨v⟩ := x
  refine ⟨rfl, rfl, rfl, rfl, rfl, rfl, rfl, rfl, rfl, rfl, rfl, rfl,
    ?_, ?_, ?_, ?_, ?_, ?_, by decide, by decide⟩ <;>
    cases v <;>
    simp [Checked.div, Checked.div_bare, Checked.rem, Checked.rem_bare,
      Checked.div_euclid, Checked.rem_euclid, Checked.and_then,
      checked_div, checked_rem, checked_div_euclid, checked_rem_euclid]

/-- Counterexample for C6: the Euclidean division and remainder of `Checked`
with a zero divisor produce the absent value, exactly like the ordinary
division; they are not fatal.  The source of `Checked::div_euclid` defers to
the `checked_div_euclid` primitive, whose own documentation promises `None`
when the divisor is zero. -/
theorem C6_counterexample :
    Checked.div_euclid true 8 ⟨some 5⟩ ⟨some 0⟩ = ⟨none⟩ ∧
    Checked.rem_euclid true 8 ⟨some 5⟩ ⟨some 0⟩ = ⟨none⟩ ∧
    Checked.div_euclid true 8 ⟨some 5⟩ ⟨some 0⟩
      = Checked.div true 8 ⟨some 5⟩ ⟨some 0⟩ := by decide

/-- Claim C6 as amended: the Euclidean division and remainder of `Checked`
degrade to an absent result on a zero divisor, exactly as the ordinary
division and remainder do. -/
theorem C6_checked_euclid_zero_amended (s : Bool) (w : Nat) (x : Checked) :
    Checked.div_euclid s w x ⟨some 0⟩ = ⟨none⟩ ∧
    Checked.rem_euclid s w x ⟨some 0⟩ = ⟨none⟩ ∧
    Checked.div_euclid s w x ⟨some 0⟩ = Checked.div s w x ⟨some 0⟩ ∧
    Checked.rem_euclid s w x ⟨some 0⟩ = Checked.rem s w x ⟨some 0⟩ := by
  obtain ⟨v⟩ := x
  refine ⟨?_, ?_, ?_, ?_⟩ <;>
    cases v <;>
    simp [Checked.div, Checked.rem, Checked.div_euclid, Checked.rem_euclid,
      Checked.and_then, checked_div, checked_rem, checked_div_euclid,
      checked_rem_euclid]

/-- Claim C7, evaluated at the failing input: the bare-integer right-shift
impl of `Overflowing` calls the left-shift primitive, so shifting the value 8
right by the bare amount 1 yields 16 instead of 4, while the
`Overflowing`-operand impl correctly yields 4, and the right-shift primitive
itself yields 4. -/
theorem C7_shr_bare_uses_shl :
    Overflowing.shr_bare false 8 ⟨8, false⟩ 1 = some ⟨16, false⟩ ∧
    Overflowing.shr_self false 8 ⟨8, false⟩ ⟨1, false⟩ = some ⟨4, false⟩ ∧
    (overflowing_shr false 8 8 1).1 = 4 ∧
    Overflowing.shr_bare false 8 ⟨8, false⟩ 1
      = Overflowing.shl_bare false 8 ⟨8, false⟩ 1 := by decide

/-- Claim C8: when the shift amount cannot be converted to the `u32` shift
count (it is negative or at least `2 ^ 32`), every shift on `Checked` yields
the absent result, while the same shifts on `Wrapping` and `Overflowing`
panic (modelled as `none`). -/
theorem C8_shift_amount_out_of_range (s : Bool) (w : Nat) (x : Checked)
    (xw : Wrapping) (xo : Overflowing) (fo : Bool) (n : Int)
    (hn : toU32 n = none) :
    (n < 0 ∨ 4294967296 ≤ n) ∧
    Checked.shl_bare s w x n = ⟨none⟩ ∧
    Checked.shr_bare s w x n = ⟨none⟩ ∧
    Checked.shl_self s w x ⟨some n⟩ = ⟨none⟩ ∧
    Checked.shr_self s w x ⟨some n⟩ = ⟨none⟩ ∧
    Wrapping.shl_bare s w xw n = none ∧
    Wrapping.shr_bare s w xw n = none ∧
    Wrapping.shl_self s w xw ⟨n⟩ = none ∧
    Wrapping.shr_self s w xw ⟨n⟩ = none ∧
    Overflowing.shl_bare s w xo n = none ∧
    Overflowing.shr_bare s w xo n = none ∧
    Overflowing.shl_self s w xo ⟨n, fo⟩ = none ∧
    Overflowing.shr_self s w xo ⟨n, fo⟩ = none := by
  have hcond : ¬(0 ≤ n ∧ n < 4294967296) := by
    intro hc
    simp [toU32, hc] at hn
  obtain ⟨v⟩ := x
  refine ⟨by omega, ?_, ?_, ?_, ?_, ?_, ?_, ?_, ?_, ?_, ?_, ?_, ?_⟩
  · cases v <;> simp [Checked.shl_bare, Checked.and_then, hn]
  · cases v <;> simp [Checked.shr_bare, Checked.and_then, hn]
  · cases v <;> simp [Checked.shl_self, Checked.and_then, hn]
  · cases v <;> simp [Checked.shr_self, Checked.and_then, hn]
  · simp [Wrapping.shl_bare, hn]
  · simp [Wrapping.shr_bare, hn]
  · simp [Wrapping.shl_self, hn]
  · simp [Wrapping.shr_self, hn]
  · simp [Overflowing.shl_bare, hn]
  · simp [Overflowing.shr_bare, hn]
  · simp [Overflowing.shl_self, hn]
  · simp [Overflowing.shr_self, hn]

/-- Witness for C8 at the unsigned 8-bit type with the negative shift
amount `-1`. -/
theorem C8_shift_amount_out_of_range_witness :
    toU32 (-1) = none ∧
    (((-1 : Int) < 0 ∨ 4294967296 ≤ (-1 : Int)) ∧
    Checked.shl_bare false 8 ⟨some 3⟩ (-1) = ⟨none⟩ ∧
    Checked.shr_bare false 8 ⟨some 3⟩ (-1) = ⟨none⟩ ∧
    Checked.shl_self false 8 ⟨some 3⟩ ⟨some (-1)⟩ = ⟨none⟩ ∧
    Checked.shr_self false 8 ⟨some 3⟩ ⟨some (-1)⟩ = ⟨none⟩ ∧
    Wrapping.shl_bare false 8 ⟨3⟩ (-1) = none ∧
    Wrapping.shr_bare false 8 ⟨3⟩ (-1) = none ∧
    Wrapping.shl_self false 8 ⟨3⟩ ⟨-1⟩ = none ∧
    Wrapping.shr_self false 8 ⟨3⟩ ⟨-1⟩ = none ∧
    Overflowing.shl_bare false 8 ⟨3, false⟩ (-1) = none ∧
    Overflowing.shr_bare false 8 ⟨3, false⟩ (-1) = none ∧
    Overflowing.shl_self false 8 ⟨3, false⟩ ⟨-1, false⟩ = none ∧
    Overflowing.shr_self false 8 ⟨3, false⟩ ⟨-1, false⟩ = none) :=
  ⟨by decide,
   C8_shift_amount_out_of_range false 8 ⟨some 3⟩ ⟨3⟩ ⟨3, false⟩ false (-1)
     (by decide)⟩

/-- Counterexample for C9: the `Ensure` trait of src/lib.rs has no conversion
into the `Overflowing` wrapper (the crate root does not even declare the
overflowing module), so the claimed four-way extension point does not exist. -/
theorem C9_counterexample : Policy.overflowing ∉ Ensure.methods := by decide

/-- Claim C9 as amended: the `Ensure` extension point provides conversions
into three wrapper kinds, `Checked`, `Wrapping` and `Saturating`; each always
succeeds, with the policy-appropriate initial state (a present value for
`Checked`); the `Overflowing` wrapper is not reachable through `Ensure`,
although its own bare-integer conversion (in the uncompiled module) starts
with a false flag. -/
theorem C9_ensure_amended (a : Int) :
    Ensure.methods = [Policy.checked, Policy.wrapping, Policy.saturating] ∧
    Ensure.toChecked a = ⟨some a⟩ ∧
    (Ensure.toChecked a).value.isSome = true ∧
    Ensure.toWrapping a = ⟨a⟩ ∧
    Ensure.toSaturating a = ⟨a⟩ ∧
    Policy.overflowing ∉ Ensure.methods ∧
    Overflowing.fromBare a = ⟨a, false⟩ ∧
    (Overflowing.fromBare a).has_overflowed = false :=
  ⟨rfl, rfl, rfl, rfl, rfl, by decide, rfl, rfl⟩

/-- Claim C10: comparing an `Overflowing` against a bare integer examines only
the stored value and ignores the flag, while the derived equality between two
`Overflowing` values also requires the flags to agree. -/
theorem C10_bare_compare_ignores_flag (v t : Int) (f : Bool) :
    Overflowing.eq_bare ⟨v, f⟩ v = true ∧
    Overflowing.eq_bare ⟨v, f⟩ t = decide (v = t) ∧
    Overflowing.cmp_bare ⟨v, f⟩ t = compare v t ∧
    Overflowing.eq_bare ⟨v, true⟩ t = Overflowing.eq_bare ⟨v, false⟩ t ∧
    Overflowing.cmp_bare ⟨v, true⟩ t = Overflowing.cmp_bare ⟨v, false⟩ t ∧
    Overflowing.eq_derived ⟨v, true⟩ ⟨v, false⟩ = false := by
  refine ⟨?_, rfl, rfl, rfl, rfl, ?_⟩
  · simp [Overflowing.eq_bare]
  · simp [Overflowing.eq_derived]

end Surety
